import Mathlib

/-!
Verification of the game engine of `Text_game_Project_02`.

The definitions below are a shallow embedding of the Python sources
`src/engine/models.py`, `src/engine/battle.py`, `src/engine/bind_sequence.py`
and `src/engine/actions.py`.  Python `int` is modelled as `Int`, Python
floats that carry exact decimal data (brand debuff ratios, the damage
jitter multiplier, escape probabilities) are modelled as `ℚ`, Python
dictionaries as association lists in insertion order, and every call to
`random.*` is replaced by an explicit input parameter (a roll, a jitter
multiplier, or a pick index).  Python `//` is floor division, modelled by
`Int.fdiv`; Python `int()` truncates toward zero, modelled by `pyInt`.
-/

namespace TextGame

/-- Python `int(x)` on a rational: truncation toward zero. -/
def pyInt (q : ℚ) : Int := if 0 ≤ q then ⌊q⌋ else ⌈q⌉

/-- A Python value as used for dictionary keys and heterogeneous fields. -/
inductive PyVal
  | int (n : Int)
  | bool (b : Bool)
  | str (s : String)
deriving DecidableEq

/-- Python arithmetic coercion of a value to an integer (`bool` is an
`int` subtype in Python; a string here would raise, which no claim
exercises). -/
def PyVal.toInt : PyVal → Int
  | .int n => n
  | .bool b => if b then 1 else 0
  | .str _ => 0

/-- Association-list lookup, modelling `dict.get(key)`. -/
def lookup? {α β : Type} [DecidableEq α] (l : List (α × β)) (k : α) : Option β :=
  (l.find? (fun kv => kv.1 = k)).map (fun kv => kv.2)

/-- `dict.get(key, d)`. -/
def lookupD {α β : Type} [DecidableEq α] (l : List (α × β)) (k : α) (d : β) : β :=
  (lookup? l k).getD d

/-- `models.CombatStats`. -/
structure CombatStats where
  sp : Int
  sp_max : Int
  hp : Int
  hp_max : Int
  mp : Int
  mp_max : Int
  pt : Int
  pt_max : Int
deriving DecidableEq

/-- `models.AbilityStats`. -/
structure AbilityStats where
  sanity : Int
  strength : Int
  focus : Int
  intelligence : Int
  knowledge : Int
  dexterity : Int
deriving DecidableEq

/-- `models.Brand`; the field `debuff` embeds the source field
`debuff_ratio` (a float, default `0.2`), modelled as `ℚ`. -/
structure Brand where
  enemy_id : String
  enemy_name : String
  debuff : ℚ
deriving DecidableEq

/-- One entry of a status effect's `effects` / `tick_effects` lists
(a dict with a `"type"` tag and an optional `"amount"`). -/
structure TickEffect where
  type : String
  amount : Option Int
deriving DecidableEq

/-- `models.StatusEffectInstance`. -/
structure StatusEffectInstance where
  id : String
  name : String
  remaining_turns : Int
  effects : List TickEffect
  tick_effects : List TickEffect
  text : List (String × String)
deriving DecidableEq

/-- `models.Player` (the fields the verified operations touch). -/
structure Player where
  combat_stats : CombatStats
  ability_stats : AbilityStats
  inventory : List (PyVal × Int)
  spells : List String
  flags : List (String × PyVal)
  status_effects : List StatusEffectInstance
  brands : List Brand
deriving DecidableEq

/-- `models.EnemyStats`. -/
structure EnemyStats where
  hp : Int
  atk : Int
  defense : Int
  matk : Int
  initiative : Int
deriving DecidableEq

/-- `models.EnemyRewards` (drop pools are not touched by the claims). -/
structure EnemyRewards where
  exp : Int
deriving DecidableEq

/-- `models.EnemyText`. -/
structure EnemyText where
  encounter : String
  defeat : String
  victory : String
deriving DecidableEq

/-- `models.Enemy` (battle instance). -/
structure Enemy where
  id : String
  name : String
  stats : EnemyStats
  current_hp : Int
  rewards : EnemyRewards
  text : EnemyText
  attack_texts : List String
  cooldowns : List (String × Int)
deriving DecidableEq

/-- `models.GameState`. -/
structure GameState where
  current_node : String
  player : Player
  in_battle : Bool
  in_bind_sequence : Bool
  current_enemy : Option Enemy
  current_bind_sequence : Option String
  current_bind_stage : Int
  game_over : Bool
  game_clear : Bool
deriving DecidableEq

/-- `battle.BattleState`. -/
structure BattleState where
  enemy : Enemy
  turn : Int
  player_defending : Bool
  enemy_defending : Bool
  battle_log : List String
  is_over : Bool
  player_won : Bool
  player_turn_first : Bool
  climax_defeat : Bool
deriving DecidableEq

/-- `models.STAT_NAME_MAP` together with `normalize_stat_name`:
bilingual alias resolution, identity on unknown tokens. -/
def normalizeStatName (stat : String) : String :=
  lookupD
    [("正気", "sanity"), ("筋力", "strength"), ("集中", "focus"),
     ("知性", "intelligence"), ("知識", "knowledge"), ("器用", "dexterity"),
     ("SP", "sp"), ("HP", "hp"), ("MP", "mp"), ("PT", "pt"),
     ("sanity", "sanity"), ("strength", "strength"), ("focus", "focus"),
     ("intelligence", "intelligence"), ("knowledge", "knowledge"),
     ("dexterity", "dexterity"), ("sp", "sp"), ("hp", "hp"), ("mp", "mp"),
     ("pt", "pt"), ("sp_max", "sp_max"), ("hp_max", "hp_max"),
     ("mp_max", "mp_max"), ("pt_max", "pt_max")] stat stat

/-- `Player.has_brand`. -/
def hasBrand (p : Player) (enemy_id : String) : Bool :=
  p.brands.any (fun b => b.enemy_id = enemy_id)

/-- `Player.get_brand_debuff`: ratio of the first matching brand, else 0. -/
def getBrandDebuff (p : Player) (enemy_id : String) : ℚ :=
  match p.brands.find? (fun b => b.enemy_id = enemy_id) with
  | some b => b.debuff
  | none => 0

/-- `Player.add_brand`: appends a brand only when none exists for this id
(source default ratio `0.2`). -/
def addBrand (p : Player) (enemy_id enemy_name : String) (ratio_val : ℚ) : Player :=
  if hasBrand p enemy_id then p
  else { p with brands := p.brands ++ [⟨enemy_id, enemy_name, ratio_val⟩] }

/-- `BattleSystem._deal_damage_to_player`.
Returns the updated stats and the `(shield_damage, hp_damage)` pair. -/
def dealDamageToPlayer (c : CombatStats) (damage : Int) (bypass_shield : Bool) :
    CombatStats × Int × Int :=
  if bypass_shield ∨ c.sp ≤ 0 then
    ({ c with hp := c.hp - damage }, 0, damage)
  else
    let shield_damage := min damage c.sp
    let c1 := { c with sp := c.sp - shield_damage }
    let remaining_damage := damage - shield_damage
    if remaining_damage > 0 then
      ({ c1 with hp := c1.hp - remaining_damage }, shield_damage, remaining_damage)
    else
      (c1, shield_damage, remaining_damage)

/-- `BattleSystem._check_player_defeat`.
Returns the updated combat stats, the updated battle state (the source
field `battle_state` may be `None`) and whether the player is defeated.
The source hardcodes `climax_damage = 20`. -/
def checkPlayerDefeat (c : CombatStats) (bs : Option BattleState) :
    CombatStats × Option BattleState × Bool :=
  if c.pt ≥ c.pt_max then
    let climax_damage : Int := 20
    let c1 := { c with hp := c.hp - climax_damage, pt := 0 }
    let bs1 := bs.map (fun b =>
      { b with battle_log := b.battle_log ++ [s!"絶頂！ HPに{climax_damage}のダメージ！"] })
    if c1.hp ≤ 0 then
      (c1, bs1.map (fun b => { b with climax_defeat := true }), true)
    else
      (c1, bs1, decide (c1.hp ≤ 0))
  else
    (c, bs, decide (c.hp ≤ 0))

/-- `BattleSystem._player_attack`, damage computation only.  The jitter
parameter stands for `random.uniform(0.9, 1.1)`. -/
def playerAttackDamage (strength : Int) (brand_debuff : ℚ) (defense : Int)
    (enemy_defending : Bool) (jitter : ℚ) : Int :=
  let base_damage := 20 + Int.fdiv strength 5
  let base_damage :=
    if brand_debuff > 0 then pyInt ((base_damage : ℚ) * (1 - brand_debuff))
    else base_damage
  let defense := if enemy_defending then defense * 2 else defense
  let damage := max 1 (base_damage - Int.fdiv defense 2)
  pyInt ((damage : ℚ) * jitter)

/-- `BattleSystem._player_attack`: full effect on the battle state. -/
def playerAttack (p : Player) (bs : BattleState) (jitter : ℚ) :
    BattleState × List String :=
  let brand_debuff := getBrandDebuff p bs.enemy.id
  let damage := playerAttackDamage p.ability_stats.strength brand_debuff
    bs.enemy.stats.defense bs.enemy_defending jitter
  let msgs :=
    (if brand_debuff > 0 then ["烙印の影響で攻撃力が低下している……"] else []) ++
    [s!"攻撃！ {bs.enemy.name}に{damage}のダメージ！"]
  ({ bs with enemy := { bs.enemy with current_hp := bs.enemy.current_hp - damage } }, msgs)

/-- `BattleSystem._end_battle` (the end-of-battle callback is external).
The unused `escaped` flag is only forwarded to that callback. -/
def endBattle (gs : GameState) (bs : Option BattleState)
    (player_won : Bool) (escaped : Bool) : GameState × Option BattleState :=
  let _ := escaped
  let bs := bs.map (fun b => { b with is_over := true, player_won := player_won })
  ({ gs with in_battle := false, current_enemy := none }, bs)

/-- `BattleSystem.is_in_battle`. -/
def isInBattle (bs : Option BattleState) : Bool :=
  match bs with
  | none => false
  | some b => !b.is_over

/-- Python string truthiness of an enemy text line: emitted only when
non-empty. -/
def truthyText (t : String) : List String :=
  if t = "" then [] else [t]

/-- `BattleSystem._handle_enemy_defeat`. -/
def handleEnemyDefeat (gs : GameState) (bs : BattleState) :
    GameState × Option BattleState × List String :=
  let msgs := truthyText bs.enemy.text.defeat ++ [s!"{bs.enemy.name}を倒した！"]
  let exp := bs.enemy.rewards.exp
  let msgs := msgs ++ (if exp > 0 then [s!"{exp}の経験値を獲得！"] else [])
  let (gs, bs') := endBattle gs (some bs) true false
  (gs, bs', msgs)

/-- `BattleSystem._handle_player_defeat`: climax-defeat branding, defeat
messages, game-over flag, then `_end_battle`. -/
def handlePlayerDefeat (gs : GameState) (bs : BattleState) :
    GameState × Option BattleState × List String :=
  let p := gs.player
  let enemy := bs.enemy
  let (p, msgs) :=
    if bs.climax_defeat then
      let msgs := ["快楽に屈した……！"]
      if ¬ hasBrand p enemy.id then
        (addBrand p enemy.id enemy.name (1/5),
         msgs ++ [s!"{enemy.name}の烙印が刻まれた……", "この敵に対する攻撃力が低下する。"])
      else (p, msgs)
    else (p, [])
  let msgs := msgs ++ truthyText enemy.text.victory ++ ["敗北した……"]
  let gs := { gs with player := p, game_over := true }
  let (gs, bs') := endBattle gs (some bs) false false
  (gs, bs', msgs)

/-- Escape probability from `BattleSystem.execute_player_action`,
`BattleAction.ESCAPE` branch: `clamp(0.5 + 0.01 * (dex - initiative), 0.1, 0.9)`. -/
def escapeChance (dexterity initiative : Int) : ℚ :=
  max (1/10) (min (9/10) (1/2 + ((dexterity : ℚ) - (initiative : ℚ)) * (1/100)))

/-- The `BattleAction.ESCAPE` branch of `execute_player_action`; the
parameter `rand` stands for `random.random()`.  Returns the updated game
state, battle state, the emitted messages, and whether the escape
succeeded. -/
def escapeAttempt (gs : GameState) (bs : BattleState) (rand : ℚ) :
    GameState × Option BattleState × List String × Bool :=
  let chance := escapeChance gs.player.ability_stats.dexterity bs.enemy.stats.initiative
  if rand < chance then
    let (gs, bs') := endBattle gs (some bs) false true
    (gs, bs', ["逃げ出した！"], true)
  else
    (gs, some bs, ["逃げられなかった！"], false)

/-- `BattleSystem._apply_template` (the call sites used by the claims
substitute only `damage`). -/
def applyTemplate (text : String) (caster target damage : String) : String :=
  ((text.replace "\x7b\x7bcaster\x7d\x7d" caster).replace
    "\x7b\x7btarget\x7d\x7d" target).replace "\x7b\x7bdamage\x7d\x7d" damage

/-- `BattleSystem._process_status_ticks`: every `deal_damage` tick effect
subtracts its amount (default 10) straight from HP, with no clamping. -/
def processStatusTicks (p : Player) : Player × List String :=
  let step := fun (acc : CombatStats × List String) (status : StatusEffectInstance) =>
    status.tick_effects.foldl
      (fun (acc : CombatStats × List String) (te : TickEffect) =>
        if te.type = "deal_damage" then
          let damage := te.amount.getD 10
          let text := lookupD status.text "tick" s!"{status.name}のダメージを受けた！"
          let text := applyTemplate text "" "" (toString damage)
          ({ acc.1 with hp := acc.1.hp - damage }, acc.2 ++ [text])
        else acc)
      acc
  let (c, msgs) := p.status_effects.foldl step (p.combat_stats, [])
  ({ p with combat_stats := c }, msgs)

/-- `models.DefaultChoiceOverride`. -/
structure DefaultChoiceOverride where
  enabled : Bool
  override_result : Option String
  success_rate_modifier : Int
  reason : Option String
deriving DecidableEq

/-- The source dataclass defaults (`enabled=True`, no override). -/
def defaultOverride : DefaultChoiceOverride := ⟨true, none, 0, none⟩

/-- A success-check modifier dict (`flag_bonus` / `item_bonus` /
`status_penalty` entries). -/
structure SuccessModifier where
  type : String
  flag : Option String
  item : Option String
  status : Option String
  bonus : Int
  penalty : Int
deriving DecidableEq

/-- `models.SuccessCheck`. -/
structure SuccessCheck where
  type : String
  rate : Int
  base_rate : Int
  formula : Option String
  expression : Option String
  modifiers : List SuccessModifier
deriving DecidableEq

/-- One effect dict of a bind-sequence effect list (the keys read by
`BindSequenceSystem._apply_effects`). -/
structure Effect where
  type : String
  text : Option String
  amount : Option Int
  target : Option String
  damage : Option Int
  damage_type : Option String
  stat : Option String
  operator : Option String
  value : Option PyVal
  flag : Option String
  stage : Option Int
deriving DecidableEq

/-- An `on_success` / `on_failure` dict of a custom action. -/
structure ActionOutcome where
  effects : List Effect
  enemy_reaction : Option String
deriving DecidableEq

/-- `models.CustomAction` (requirements are only read by
`get_available_choices`, which no claim covers). -/
structure CustomAction where
  id : String
  label : String
  cost : List (String × Int)
  success_check : Option SuccessCheck
  on_success : Option ActionOutcome
  on_failure : Option ActionOutcome
deriving DecidableEq

/-- `models.BindStage`.  The three override fields model
`default_choices_override.get(key, DefaultChoiceOverride())`; the
`player_texts` values are modelled as the plain-string branch of
`_get_player_text`. -/
structure BindStage where
  stage : Int
  description : String
  player_texts : List (String × String)
  enemy_reactions : List (String × String)
  resist_override : DefaultChoiceOverride
  resist_hard_override : DefaultChoiceOverride
  wait_override : DefaultChoiceOverride
  custom_actions : List CustomAction
  loop_effects : List Effect
deriving DecidableEq

/-- `models.BindSequenceConfig`. -/
structure BindSequenceConfig where
  base_difficulty : Int
  loop_damage : List (String × Int)
deriving DecidableEq

/-- `models.BindSequenceMetadata`. -/
structure BindSequenceMetadata where
  name : String
deriving DecidableEq

/-- `models.BindSequence`. -/
structure BindSequence where
  id : String
  metadata : BindSequenceMetadata
  config : BindSequenceConfig
  stages : List BindStage
deriving DecidableEq

/-- `bind_sequence.BindSequenceState`. -/
structure BindSequenceState where
  sequence : BindSequence
  current_stage : Int
  turn : Int
  next_turn_bonus : Int
  escaped : Bool
  failed : Bool
deriving DecidableEq

/-- `BindSequenceSystem._get_current_stage`. -/
def getCurrentStage (st : BindSequenceState) : Option BindStage :=
  st.sequence.stages.find? (fun s => s.stage = st.current_stage)

/-- `BindSequenceSystem._calculate_success_rate`: adds the modifier and
the carried one-shot bonus, resets the bonus, clamps to `[5, 95]`. -/
def calculateSuccessRate (st : BindSequenceState) (base_rate modifier : Int) :
    Int × BindSequenceState :=
  let rate := base_rate + modifier + st.next_turn_bonus
  (max 5 (min 95 rate), { st with next_turn_bonus := 0 })

/-- `BindSequenceSystem._modify_pt`: PT increases, capped at `pt_max`. -/
def modifyPt (c : CombatStats) (amount : Int) : CombatStats :=
  { c with pt := min c.pt_max (c.pt + amount) }

/-- Python `a or b` on an optional string (`None` and `""` are falsy). -/
def orDefault (o : Option String) (d : String) : String :=
  match o with
  | some t => if t = "" then d else t
  | none => d

/-- `if stage.enemy_reactions.get(key): messages.append(...)`. -/
def reactionText (stage : BindStage) (key : String) : List String :=
  match lookup? stage.enemy_reactions key with
  | some t => if t = "" then [] else [t]
  | none => []

/-- `BindSequenceSystem._get_player_text` (plain-string data). -/
def getPlayerText (stage : BindStage) (key default : String) : String :=
  match lookup? stage.player_texts key with
  | some t => if t = "" then default else t
  | none => default

/-- `BindSequenceSystem._execute_resist`, acting on the sequence state
and the player's combat stats; `roll` stands for `random.randint(1, 100)`. -/
def executeResist (st : BindSequenceState) (c : CombatStats) (stage : BindStage)
    (roll : Int) : BindSequenceState × CombatStats × List String :=
  let ov := stage.resist_override
  if ov.override_result = some "auto_fail" then
    ({ st with current_stage := st.current_stage + 1 }, c,
     [orDefault ov.reason "抵抗できない……！"] ++ reactionText stage "on_player_resist_fail")
  else if ov.override_result = some "auto_success" then
    ({ st with current_stage := st.current_stage - 1 }, c,
     ["抵抗に成功した！"] ++ reactionText stage "on_player_resist_success")
  else
    let base_difficulty := st.sequence.config.base_difficulty
    let (success_rate, st) :=
      calculateSuccessRate st (100 - base_difficulty) ov.success_rate_modifier
    if roll ≤ success_rate then
      ({ st with current_stage := st.current_stage - 1 }, c,
       [getPlayerText stage "on_resist_success" "抵抗に成功した！"] ++
         reactionText stage "on_player_resist_success")
    else
      ({ st with current_stage := st.current_stage + 1 }, modifyPt c 10,
       [getPlayerText stage "on_resist_fail" "抵抗に失敗した……"] ++
         reactionText stage "on_player_resist_fail")

/-- `BindSequenceSystem._execute_resist_hard`. -/
def executeResistHard (st : BindSequenceState) (c : CombatStats) (stage : BindStage)
    (roll : Int) : BindSequenceState × CombatStats × List String :=
  let ov := stage.resist_hard_override
  if ov.override_result = some "auto_fail" then
    ({ st with current_stage := st.current_stage + 2 }, modifyPt c 25,
     [orDefault ov.reason "全力で抵抗したが、無駄だった……！"])
  else if ov.override_result = some "auto_success" then
    ({ st with current_stage := -1 }, c, ["渾身の力で拘束を振りほどいた！"])
  else
    let base_difficulty := st.sequence.config.base_difficulty
    let (success_rate, st) :=
      calculateSuccessRate st (50 - Int.fdiv base_difficulty 2) ov.success_rate_modifier
    if roll ≤ success_rate then
      ({ st with current_stage := -1 }, c,
       ["全力で抵抗し、拘束から脱出した！"] ++ reactionText stage "on_player_resist_success")
    else
      ({ st with current_stage := st.current_stage + 1 }, modifyPt c 25,
       ["全力で抵抗したが、失敗した……！"] ++ reactionText stage "on_player_resist_fail")

/-- `BindSequenceSystem._execute_wait`. -/
def executeWait (st : BindSequenceState) (stage : BindStage) :
    BindSequenceState × List String :=
  let ov := stage.wait_override
  if ov.override_result = some "auto_fail" then
    (st, [orDefault ov.reason "抵抗を諦めるわけにはいかない……！"])
  else
    let msgs := [getPlayerText stage "on_wait" "抵抗せずに力を溜める……"]
    ({ st with current_stage := st.current_stage + 1, next_turn_bonus := 20 },
     msgs ++ reactionText stage "on_player_wait")

/-- Adjust an existing inventory entry in place (`inv[k] += n`). -/
def invAdd (inv : List (PyVal × Int)) (k : PyVal) (n : Int) : List (PyVal × Int) :=
  inv.map (fun kv => if kv.1 = k then (kv.1, kv.2 + n) else kv)

/-- `dict[k] = v`: update in place if present, else append. -/
def setAssoc {α β : Type} [DecidableEq α] (l : List (α × β)) (k : α) (v : β) :
    List (α × β) :=
  if (l.find? (fun kv => kv.1 = k)).isSome then
    l.map (fun kv => if kv.1 = k then (k, v) else kv)
  else l ++ [(k, v)]

/-- `BindSequenceSystem._apply_cost`: walks the cost dict in order and
deducts each affordable component, returning `false` at the first
unaffordable one — components already walked stay deducted.  The
`"item"` branch looks the cost *value* up as an inventory key, as the
source does. -/
def applyCost (p : Player) (cost : List (String × Int)) : Player × Bool :=
  match cost with
  | [] => (p, true)
  | (stat, amount) :: rest =>
    if stat = "mp" then
      if p.combat_stats.mp < amount then (p, false)
      else applyCost
        { p with combat_stats := { p.combat_stats with mp := p.combat_stats.mp - amount } }
        rest
    else if stat = "hp" then
      if p.combat_stats.hp < amount then (p, false)
      else applyCost
        { p with combat_stats := { p.combat_stats with hp := p.combat_stats.hp - amount } }
        rest
    else if stat = "item" then
      if lookupD p.inventory (.int amount) 0 < 1 then (p, false)
      else applyCost { p with inventory := invAdd p.inventory (.int amount) (-1) } rest
    else applyCost p rest

/-- Python truthiness of `flags.get(flag)`. -/
def truthyVal : Option PyVal → Bool
  | none => false
  | some (.int n) => n ≠ 0
  | some (.bool b) => b
  | some (.str s) => s ≠ ""

/-- `BindSequenceSystem._check_custom_success`; `roll` stands for
`random.randint(1, 100)` and `evalF` for `_evaluate_formula` (whose body
is a Python `eval`, external to this embedding).  The `status_penalty`
branch indexes the player's status-effect instances by id, as intended
by the source lookup. -/
def checkCustomSuccess (p : Player) (check : Option SuccessCheck) (roll : Int)
    (evalF : String → Int) : Bool :=
  match check with
  | none => true
  | some ck =>
    if ck.type = "fixed" then decide (roll ≤ ck.rate)
    else if ck.type = "stat_based" then
      let rate := ck.base_rate + (match ck.formula with | some f => evalF f | none => 0)
      let rate := ck.modifiers.foldl (fun rate m =>
        if m.type = "flag_bonus" then
          match m.flag with
          | some fl => if truthyVal (lookup? p.flags fl) then rate + m.bonus else rate
          | none => rate
        else if m.type = "item_bonus" then
          match m.item with
          | some it => if lookupD p.inventory (.str it) 0 > 0 then rate + m.bonus else rate
          | none => rate
        else if m.type = "status_penalty" then
          match m.status with
          | some sid => if p.status_effects.any (fun se => se.id = sid) then rate + m.penalty else rate
          | none => rate
        else rate) rate
      decide (roll ≤ max 5 (min 95 rate))
    else if ck.type = "formula" then
      match ck.expression with
      | some e => decide (roll ≤ max 5 (min 95 (evalF e)))
      | none => true
    else true

/-- `BindSequenceSystem.start_sequence`; returns the updated game state,
the fresh bind state when the sequence exists (`none` keeps the old
one), and the messages. -/
def startSequence (seqs : List (String × BindSequence)) (gs : GameState)
    (sequence_id : String) (start_stage : Int) :
    GameState × Option BindSequenceState × List String :=
  match lookup? seqs sequence_id with
  | none => (gs, none, [s!"シーケンス \x27{sequence_id}\x27 が見つかりません。"])
  | some sequence =>
    let st : BindSequenceState :=
      { sequence := sequence, current_stage := start_stage, turn := 1,
        next_turn_bonus := 0, escaped := false, failed := false }
    let gs := { gs with in_bind_sequence := true,
                        current_bind_sequence := some sequence_id,
                        current_bind_stage := start_stage }
    let msgs := [s!"【{sequence.metadata.name}】"]
    let msgs := msgs ++ (match getCurrentStage st with
      | some sg => [sg.description]
      | none => [])
    (gs, some st, msgs)

/-- `player.combat_stats.hp -= damage` (no clamping). -/
def playerHpSub (p : Player) (damage : Int) : Player :=
  { p with combat_stats := { p.combat_stats with hp := p.combat_stats.hp - damage } }

/-- `BindSequenceSystem._modify_pt` lifted to the player. -/
def bindModifyPt (p : Player) (amount : Int) : Player :=
  { p with combat_stats := modifyPt p.combat_stats amount }

/-- `BindSequenceSystem._get_stat_value` (normalizes bilingual names;
no `*_max` entries; unknown stats read as 0). -/
def bindGetStatValue (p : Player) (stat : String) : Int :=
  let stat := normalizeStatName stat
  let c := p.combat_stats
  let a := p.ability_stats
  lookupD
    [("sp", c.sp), ("hp", c.hp), ("mp", c.mp), ("pt", c.pt),
     ("sanity", a.sanity), ("strength", a.strength), ("focus", a.focus),
     ("intelligence", a.intelligence), ("knowledge", a.knowledge),
     ("dexterity", a.dexterity)] stat 0

/-- `BindSequenceSystem._set_stat_value`: clamps and writes; this
variant does *not* normalize the name and only handles
`sp/hp/mp/pt/sanity/strength`; anything else is a silent no-op. -/
def bindSetStatValue (p : Player) (stat : String) (value : Int) : Player :=
  let c := p.combat_stats
  let a := p.ability_stats
  if stat = "sp" then { p with combat_stats := { c with sp := max 0 (min c.sp_max value) } }
  else if stat = "hp" then { p with combat_stats := { c with hp := max 0 (min c.hp_max value) } }
  else if stat = "mp" then { p with combat_stats := { c with mp := max 0 (min c.mp_max value) } }
  else if stat = "pt" then { p with combat_stats := { c with pt := max 0 (min c.pt_max value) } }
  else if stat = "sanity" then { p with ability_stats := { a with sanity := max 0 (min 100 value) } }
  else if stat = "strength" then { p with ability_stats := { a with strength := max 0 (min 100 value) } }
  else p

/-- `BindSequenceSystem._modify_stat` (Python `//` is floor division;
division by zero is a no-op). -/
def bindModifyStat (p : Player) (stat op : String) (value : Int) : Player :=
  let current := bindGetStatValue p stat
  let new_value :=
    if op = "+" then current + value
    else if op = "-" then current - value
    else if op = "=" then value
    else if op = "*" then current * value
    else if op = "/" then (if value ≠ 0 then Int.fdiv current value else current)
    else current
  bindSetStatValue p stat new_value

/-- `if s: xs.append(s)` on an optional string. -/
def truthyOpt (o : Option String) : List String :=
  match o with
  | some t => truthyText t
  | none => []

/-- One iteration of `BindSequenceSystem._apply_effects`; unknown effect
types are silently skipped. -/
def applyOneEffect (seqs : List (String × BindSequence))
    (acc : GameState × BindSequenceState × List String) (e : Effect) :
    GameState × BindSequenceState × List String :=
  let (gs, st, msgs) := acc
  if e.type = "message" then (gs, st, msgs ++ [e.text.getD ""])
  else if e.type = "stage_progress" then
    (gs, { st with current_stage := st.current_stage + e.amount.getD 1 }, msgs)
  else if e.type = "stage_regress" then
    (gs, { st with current_stage := st.current_stage - e.amount.getD 1 }, msgs)
  else if e.type = "escape_bind" then (gs, { st with current_stage := -1 }, msgs)
  else if e.type = "deal_damage" then
    let damage := e.damage.getD 0
    let dtype := e.damage_type.getD "physical"
    if e.target = some "enemy" then
      match gs.current_enemy with
      | some enemy =>
        ({ gs with current_enemy := some { enemy with current_hp := enemy.current_hp - damage } },
         st, msgs ++ [s!"敵に{damage}のダメージ！"])
      | none => (gs, st, msgs)
    else if e.target = some "self" then
      if dtype = "pt" then ({ gs with player := bindModifyPt gs.player damage }, st, msgs)
      else ({ gs with player := playerHpSub gs.player damage }, st,
            msgs ++ [s!"{damage}のダメージを受けた！"])
    else (gs, st, msgs)
  else if e.type = "modify_stat" then
    let p := bindModifyStat gs.player (e.stat.getD "") (e.operator.getD "+")
      ((e.value.getD (.int 0)).toInt)
    ({ gs with player := p }, st, msgs)
  else if e.type = "set_flag" then
    ({ gs with player := { gs.player with
        flags := setAssoc gs.player.flags (e.flag.getD "") (e.value.getD (.bool true)) } },
     st, msgs)
  else if e.type = "switch_bind_sequence" then
    let target_seq := e.target.getD ""
    let start_stage := e.stage.getD 0
    let gs := { gs with current_bind_sequence := e.target,
                        current_bind_stage := start_stage }
    let (gs, newSt, m2) := startSequence seqs gs target_seq start_stage
    (gs, newSt.getD st, msgs ++ m2)
  else (gs, st, msgs)

/-- `BindSequenceSystem._apply_effects`. -/
def applyEffects (seqs : List (String × BindSequence)) (gs : GameState)
    (st : BindSequenceState) (effects : List Effect) :
    GameState × BindSequenceState × List String :=
  effects.foldl (applyOneEffect seqs) (gs, st, [])

/-- `BindSequenceSystem._execute_custom_action`: cost rejection leaves
already-deducted components in place (the mutated player persists). -/
def executeCustomAction (seqs : List (String × BindSequence)) (gs : GameState)
    (st : BindSequenceState) (stage : BindStage) (action_id : String)
    (roll : Int) (evalF : String → Int) :
    GameState × BindSequenceState × List String :=
  match stage.custom_actions.find? (fun ca => ca.id = action_id) with
  | none => (gs, st, ["アクションが見つかりません。"])
  | some ca =>
    let (p, ok) := applyCost gs.player ca.cost
    let gs := { gs with player := p }
    if ¬ ok then (gs, st, ["コストが足りません。"])
    else
      let success := checkCustomSuccess gs.player ca.success_check roll evalF
      if success then
        match ca.on_success with
        | some oc =>
          let (gs, st, msgs) := applyEffects seqs gs st oc.effects
          (gs, st, msgs ++ truthyOpt oc.enemy_reaction)
        | none => (gs, st, [])
      else
        match ca.on_failure with
        | some oc =>
          let (gs, st, msgs) := applyEffects seqs gs st oc.effects
          (gs, st, msgs ++ truthyOpt oc.enemy_reaction)
        | none => (gs, st, [])

/-- `models.WeightedOption`. -/
structure WeightedOption (α : Type) where
  weight : Int
  value : α
deriving DecidableEq

/-- The accumulating walk inside `ActionSystem._weighted_random`:
`cumulative += opt.weight; if roll <= cumulative: return opt.value`. -/
def weightedWalk {α : Type} (options : List (WeightedOption α))
    (roll cumulative : Int) : Option α :=
  match options with
  | [] => none
  | o :: rest =>
    if roll ≤ cumulative + o.weight then some o.value
    else weightedWalk rest roll (cumulative + o.weight)

/-- `ActionSystem._weighted_random`; `roll` stands for
`random.randint(1, total_weight)` and `pick` for the index drawn by
`random.choice` in the zero-total fallback. -/
def weightedRandom {α : Type} (options : List (WeightedOption α))
    (roll : Int) (pick : Nat) : Option α :=
  if options.isEmpty then none
  else
    let total_weight := (options.map (fun o => o.weight)).sum
    if total_weight = 0 then
      (options.get? (pick % options.length)).map (fun o => o.value)
    else
      match weightedWalk options roll 0 with
      | some v => some v
      | none => options.getLast?.map (fun o => o.value)

/-- Cumulative weight of the first `k` options. -/
def cumWeight {α : Type} (options : List (WeightedOption α)) (k : Nat) : Int :=
  ((options.take k).map (fun o => o.weight)).sum

/-- `ActionSystem._set_stat_value`: normalizes the stat name, clamps
combat stats to `[0, max]` and all six ability stats to `[0, 100]`;
unknown stats are a no-op. -/
def actionSetStatValue (p : Player) (stat : String) (value : Int) : Player :=
  let stat := normalizeStatName stat
  let c := p.combat_stats
  let a := p.ability_stats
  if stat = "sp" then { p with combat_stats := { c with sp := max 0 (min c.sp_max value) } }
  else if stat = "hp" then { p with combat_stats := { c with hp := max 0 (min c.hp_max value) } }
  else if stat = "mp" then { p with combat_stats := { c with mp := max 0 (min c.mp_max value) } }
  else if stat = "pt" then { p with combat_stats := { c with pt := max 0 (min c.pt_max value) } }
  else if stat = "sanity" then { p with ability_stats := { a with sanity := max 0 (min 100 value) } }
  else if stat = "strength" then { p with ability_stats := { a with strength := max 0 (min 100 value) } }
  else if stat = "focus" then { p with ability_stats := { a with focus := max 0 (min 100 value) } }
  else if stat = "intelligence" then { p with ability_stats := { a with intelligence := max 0 (min 100 value) } }
  else if stat = "knowledge" then { p with ability_stats := { a with knowledge := max 0 (min 100 value) } }
  else if stat = "dexterity" then { p with ability_stats := { a with dexterity := max 0 (min 100 value) } }
  else p

/-! ### Concrete fixtures (the default player and test enemy of
`src/tests/conftest.py`) used by witnesses and counterexamples. -/

/-- The default player combat stats of `conftest.py`. -/
def testCombat : CombatStats := ⟨100, 100, 80, 80, 50, 50, 0, 100⟩

/-- The default player ability stats of `conftest.py`. -/
def testAbility : AbilityStats := ⟨70, 50, 60, 65, 55, 45⟩

/-- The default player of `conftest.py`. -/
def testPlayer : Player := ⟨testCombat, testAbility, [], [], [], [], []⟩

/-- The test enemy of `conftest.py`. -/
def testEnemy : Enemy :=
  ⟨"test_enemy", "Test Enemy", ⟨100, 20, 10, 15, 10⟩, 100, ⟨50⟩,
   ⟨"Test enemy appeared!", "Test enemy defeated!", "You were defeated!"⟩,
   ["Test enemy attacks!"], []⟩

/-- A game state with the fixture player mid-battle. -/
def testGameState : GameState :=
  ⟨"test_node", testPlayer, true, false, some testEnemy, none, 0, false, false⟩

/-- A fresh battle state against the fixture enemy. -/
def testBattleState : BattleState :=
  ⟨testEnemy, 1, false, false, [], false, false, true, false⟩

/-! ### C1 -/

/-- C1 (code bug): when PT has reached `pt_max`, `_check_player_defeat`
resets PT to 0 and logs a climax message, but subtracts a hardcoded 20
from HP — not `10 + pt_max // 5` (which is 30 at the fixture's
`pt_max = 100`).  The repository's own test
`test_climax_deals_hp_damage` asserts the `10 + pt_max // 5` formula,
so the claim matches the intent and the code deviates. -/
theorem C1_climax_damage_hardcoded :
    (checkPlayerDefeat { testCombat with pt := 100 } (some testBattleState)).1.hp = 80 - 20 ∧
    (checkPlayerDefeat { testCombat with pt := 100 } (some testBattleState)).1.pt = 0 ∧
    (checkPlayerDefeat { testCombat with pt := 100 } (some testBattleState)).2.1.map
      (fun b => b.battle_log) = some ["絶頂！ HPに20のダメージ！"] ∧
    (80 : Int) - 20 ≠ 80 - (10 + Int.fdiv 100 5) := by
  refine ⟨rfl, rfl, rfl, by decide⟩

/-! ### C2 -/

/-- C2: `_deal_damage_to_player` splits damage as
`shield = min(amount, sp)`, `hp_loss = amount − shield` when the shield
is live, and sends the full amount to HP (shield loss 0) when bypassed
or when SP ≤ 0. -/
theorem C2_sp_shield_split (c : CombatStats) (amount : Int) (h : 0 ≤ amount) :
    (0 ≤ c.sp →
      (dealDamageToPlayer c amount false).2.1 = min amount c.sp ∧
      (dealDamageToPlayer c amount false).2.2 = amount - min amount c.sp ∧
      (dealDamageToPlayer c amount false).1.sp = c.sp - min amount c.sp ∧
      (dealDamageToPlayer c amount false).1.hp = c.hp - (amount - min amount c.sp)) ∧
    (∀ bypass_shield : Bool, bypass_shield = true ∨ c.sp ≤ 0 →
      (dealDamageToPlayer c amount bypass_shield).2.1 = 0 ∧
      (dealDamageToPlayer c amount bypass_shield).2.2 = amount ∧
      (dealDamageToPlayer c amount bypass_shield).1.hp = c.hp - amount ∧
      (dealDamageToPlayer c amount bypass_shield).1.sp = c.sp) := by
  constructor
  · intro hsp
    unfold dealDamageToPlayer
    split_ifs <;> simp_all
    all_goals try (split_ifs <;> simp_all)
    all_goals omega
  · intro bypass_shield hb
    have hcond : (bypass_shield = true ∨ c.sp ≤ 0) := hb
    unfold dealDamageToPlayer
    rw [if_pos hcond]
    exact ⟨rfl, rfl, rfl, rfl⟩

/-- Witness for C2 at the fixture stats and damage 30. -/
theorem C2_witness :
    (dealDamageToPlayer testCombat 30 false).2.1 = min 30 testCombat.sp ∧
    (dealDamageToPlayer testCombat 30 false).2.2 = 30 - min 30 testCombat.sp ∧
    (dealDamageToPlayer testCombat 30 false).1.sp = testCombat.sp - min 30 testCombat.sp ∧
    (dealDamageToPlayer testCombat 30 false).1.hp =
      testCombat.hp - (30 - min 30 testCombat.sp) :=
  (C2_sp_shield_split testCombat 30 (by decide)).1 (by decide)

/-! ### C10 -/

/-- C10: each of the three battle-ending paths (enemy defeat, player
defeat, successful escape) marks the battle state over, clears
`in_battle` and `current_enemy`, and makes `is_in_battle()` false. -/
theorem C10_battle_end_clears_state (gs : GameState) (bs : BattleState) (rand : ℚ)
    (hesc : rand < escapeChance gs.player.ability_stats.dexterity bs.enemy.stats.initiative) :
    ((handleEnemyDefeat gs bs).1.in_battle = false ∧
     (handleEnemyDefeat gs bs).1.current_enemy = none ∧
     (handleEnemyDefeat gs bs).2.1 = some { bs with is_over := true, player_won := true } ∧
     isInBattle (handleEnemyDefeat gs bs).2.1 = false) ∧
    ((handlePlayerDefeat gs bs).1.in_battle = false ∧
     (handlePlayerDefeat gs bs).1.current_enemy = none ∧
     (handlePlayerDefeat gs bs).2.1 = some { bs with is_over := true, player_won := false } ∧
     isInBattle (handlePlayerDefeat gs bs).2.1 = false) ∧
    ((escapeAttempt gs bs rand).1.in_battle = false ∧
     (escapeAttempt gs bs rand).1.current_enemy = none ∧
     (escapeAttempt gs bs rand).2.1 = some { bs with is_over := true, player_won := false } ∧
     isInBattle (escapeAttempt gs bs rand).2.1 = false) := by
  refine ⟨?_, ?_, ?_⟩
  · unfold handleEnemyDefeat endBattle isInBattle
    simp
  · unfold handlePlayerDefeat endBattle isInBattle
    split_ifs <;> simp
  · unfold escapeAttempt endBattle isInBattle
    rw [if_pos hesc]
    simp

/-- Witness for C10: at the fixture battle (dexterity 45 vs initiative
10) a roll of 0 escapes, and the battle is over afterwards. -/
theorem C10_witness :
    isInBattle (escapeAttempt testGameState testBattleState 0).2.1 = false :=
  (C10_battle_end_clears_state testGameState testBattleState 0
    (by norm_num [escapeChance, testGameState, testBattleState, testPlayer,
      testAbility, testEnemy])).2.2.2.2.2

/-- A minimal bind stage with all default choice overrides. -/
def testBindStage : BindStage :=
  ⟨0, "stage0", [], [], defaultOverride, defaultOverride, defaultOverride, [], []⟩

/-- A bind sequence at the default difficulty 50 with one stage. -/
def testBindSequence : BindSequence := ⟨"seq", ⟨"Seq"⟩, ⟨50, []⟩, [testBindStage]⟩

/-- A fresh bind-sequence state at stage 0 with no carried bonus. -/
def testBindState : BindSequenceState := ⟨testBindSequence, 0, 1, 0, false, false⟩

/-- The fixture stage with `resist_hard` overridden to `auto_fail`. -/
def stageHardAutoFail : BindStage :=
  { testBindStage with resist_hard_override := ⟨true, some "auto_fail", 0, none⟩ }

/-! ### C4 -/

/-- C4: with no override, `resist` succeeds exactly when the roll is at
most `clamp(100 − base_difficulty + modifier + carried bonus, 5, 95)`
(so exactly 50 at difficulty 50 with no modifier or bonus); success
regresses the stage by 1, failure progresses it by 1 and adds 10 PT;
the carried bonus is always reset to 0 by the rate calculation. -/
theorem C4_resist_rate_and_transitions (st : BindSequenceState) (c : CombatStats)
    (stage : BindStage) (roll : Int)
    (hov : stage.resist_override.override_result = none)
    (hpt : c.pt + 10 ≤ c.pt_max) :
    (executeResist st c stage roll).1.next_turn_bonus = 0 ∧
    (roll ≤ max 5 (min 95 (100 - st.sequence.config.base_difficulty +
        stage.resist_override.success_rate_modifier + st.next_turn_bonus)) →
      (executeResist st c stage roll).1.current_stage = st.current_stage - 1 ∧
      (executeResist st c stage roll).2.1.pt = c.pt) ∧
    (max 5 (min 95 (100 - st.sequence.config.base_difficulty +
        stage.resist_override.success_rate_modifier + st.next_turn_bonus)) < roll →
      (executeResist st c stage roll).1.current_stage = st.current_stage + 1 ∧
      (executeResist st c stage roll).2.1.pt = c.pt + 10) ∧
    (st.sequence.config.base_difficulty = 50 →
      stage.resist_override.success_rate_modifier = 0 → st.next_turn_bonus = 0 →
      max 5 (min 95 (100 - st.sequence.config.base_difficulty +
        stage.resist_override.success_rate_modifier + st.next_turn_bonus)) = 50) := by
  have h1 : ¬ (stage.resist_override.override_result = some "auto_fail") := by
    rw [hov]; simp
  have h2 : ¬ (stage.resist_override.override_result = some "auto_success") := by
    rw [hov]; simp
  unfold executeResist calculateSuccessRate modifyPt
  rw [if_neg h1, if_neg h2]
  dsimp only
  split_ifs with hr
  · exact ⟨rfl, fun _ => ⟨rfl, rfl⟩, fun h => absurd hr (not_le.mpr h),
      fun a b c => by omega⟩
  · refine ⟨rfl, fun h => absurd h hr, fun _ => ⟨rfl, ?_⟩, fun a b c => by omega⟩
    show min c.pt_max (c.pt + 10) = c.pt + 10
    omega

/-- Witness for C4 at difficulty 50, no modifier, no bonus, roll 50. -/
theorem C4_witness :
    (executeResist testBindState testCombat testBindStage 50).1.current_stage =
      testBindState.current_stage - 1 ∧
    (executeResist testBindState testCombat testBindStage 50).2.1.pt = testCombat.pt :=
  (C4_resist_rate_and_transitions testBindState testCombat testBindStage 50 rfl
    (by decide)).2.1 (by decide)

/-! ### C5 -/

/-- C5 counterexample: with `resist_hard` overridden to `auto_fail`, the
source progresses the stage by 2 (`self._progress_stage(2)`), not by 1
as the claim states for the configured failure consequence. -/
theorem C5_counterexample_auto_fail_progresses_two :
    (executeResistHard testBindState testCombat stageHardAutoFail 1).1.current_stage = 2 ∧
    testBindState.current_stage + 1 ≠ 2 := by
  exact ⟨rfl, by decide⟩

/-- C5 (amended): `resist_hard` has base success rate
`50 − base_difficulty // 2` (plus modifier and carried bonus, clamped to
`[5, 95]`); success escapes immediately (stage −1), failure progresses
by 1 and adds 25 PT; the `auto_fail` override skips the roll but
progresses the stage by 2 (not 1) while still adding 25 PT, and
`auto_success` escapes immediately. -/
theorem C5_resist_hard (st : BindSequenceState) (c : CombatStats)
    (stage : BindStage) (roll : Int)
    (hpt : c.pt + 25 ≤ c.pt_max) :
    (stage.resist_hard_override.override_result = none →
      (roll ≤ max 5 (min 95 (50 - Int.fdiv st.sequence.config.base_difficulty 2 +
          stage.resist_hard_override.success_rate_modifier + st.next_turn_bonus)) →
        (executeResistHard st c stage roll).1.current_stage = -1 ∧
        (executeResistHard st c stage roll).2.1.pt = c.pt) ∧
      (max 5 (min 95 (50 - Int.fdiv st.sequence.config.base_difficulty 2 +
          stage.resist_hard_override.success_rate_modifier + st.next_turn_bonus)) < roll →
        (executeResistHard st c stage roll).1.current_stage = st.current_stage + 1 ∧
        (executeResistHard st c stage roll).2.1.pt = c.pt + 25)) ∧
    (stage.resist_hard_override.override_result = some "auto_fail" →
      (executeResistHard st c stage roll).1.current_stage = st.current_stage + 2 ∧
      (executeResistHard st c stage roll).2.1.pt = c.pt + 25) ∧
    (stage.resist_hard_override.override_result = some "auto_success" →
      (executeResistHard st c stage roll).1.current_stage = -1 ∧
      (executeResistHard st c stage roll).2.1.pt = c.pt) := by
  refine ⟨fun hov => ?_, fun hov => ?_, fun hov => ?_⟩
  · have h1 : ¬ (stage.resist_hard_override.override_result = some "auto_fail") := by
      rw [hov]; simp
    have h2 : ¬ (stage.resist_hard_override.override_result = some "auto_success") := by
      rw [hov]; simp
    unfold executeResistHard calculateSuccessRate modifyPt
    rw [if_neg h1, if_neg h2]
    dsimp only
    split_ifs with hr
    · exact ⟨fun _ => ⟨rfl, rfl⟩, fun h => absurd hr (not_le.mpr h)⟩
    · refine ⟨fun h => absurd h hr, fun _ => ⟨rfl, ?_⟩⟩
      show min c.pt_max (c.pt + 25) = c.pt + 25
      omega
  · unfold executeResistHard modifyPt
    rw [if_pos hov]
    refine ⟨rfl, ?_⟩
    show min c.pt_max (c.pt + 25) = c.pt + 25
    omega
  · have h1 : ¬ (stage.resist_hard_override.override_result = some "auto_fail") := by
      rw [hov]; simp
    unfold executeResistHard
    rw [if_neg h1, if_pos hov]
    exact ⟨rfl, rfl⟩

/-- Witness for C5: the `auto_fail` override at the fixture state. -/
theorem C5_witness :
    (executeResistHard testBindState testCombat stageHardAutoFail 1).1.current_stage =
      testBindState.current_stage + 2 ∧
    (executeResistHard testBindState testCombat stageHardAutoFail 1).2.1.pt =
      testCombat.pt + 25 :=
  (C5_resist_hard testBindState testCombat stageHardAutoFail 1 (by decide)).2.1 rfl

/-! ### C3 -/

/-- A custom action whose MP component is affordable for the fixture
player but whose HP component is not. -/
def costAction : CustomAction :=
  ⟨"struggle_rope", "縄抜け", [("mp", 5), ("hp", 999)], none, none, none⟩

/-- The fixture stage carrying `costAction`. -/
def stageWithCost : BindStage := { testBindStage with custom_actions := [costAction] }

/-- C3 counterexample: executing `costAction` on the fixture player
(MP 50, HP 80) rejects the action with the insufficiency message, yet
the MP component has already been deducted (50 → 45), so the claim that
no cost component is deducted when another is unaffordable is false. -/
theorem C3_counterexample_mp_deducted :
    (executeCustomAction [] testGameState testBindState stageWithCost "struggle_rope" 1
      (fun _ => 50)).1.player.combat_stats.mp = 45 ∧
    testGameState.player.combat_stats.mp = 50 ∧
    (executeCustomAction [] testGameState testBindState stageWithCost "struggle_rope" 1
      (fun _ => 50)).2.2 = ["コストが足りません。"] :=
  ⟨rfl, rfl, rfl⟩

/-- C3 (amended): an unaffordable cost rejects the whole action with a
message and runs no effects, but the cost components are checked and
deducted sequentially, so components preceding the first unaffordable
one (here MP before HP) stay deducted — the rejection is not atomic. -/
theorem C3_cost_deduction_sequential (seqs : List (String × BindSequence))
    (gs : GameState) (st : BindSequenceState) (stage : BindStage)
    (action_id : String) (ca : CustomAction) (m h roll : Int) (evalF : String → Int)
    (hfind : stage.custom_actions.find? (fun a => a.id = action_id) = some ca)
    (hcost : ca.cost = [("mp", m), ("hp", h)])
    (hm : m ≤ gs.player.combat_stats.mp)
    (hh : gs.player.combat_stats.hp < h) :
    (executeCustomAction seqs gs st stage action_id roll evalF).1.player =
      { gs.player with combat_stats :=
          { gs.player.combat_stats with mp := gs.player.combat_stats.mp - m } } ∧
    (executeCustomAction seqs gs st stage action_id roll evalF).2.1 = st ∧
    (executeCustomAction seqs gs st stage action_id roll evalF).2.2 =
      ["コストが足りません。"] := by
  have hm' : ¬ (gs.player.combat_stats.mp < m) := not_lt.mpr hm
  have hac : applyCost gs.player ca.cost =
      ({ gs.player with combat_stats :=
          { gs.player.combat_stats with mp := gs.player.combat_stats.mp - m } }, false) := by
    rw [hcost]
    simp [applyCost, hm', hh]
  unfold executeCustomAction
  rw [hfind]
  dsimp only
  rw [hac]
  simp

/-- Witness for C3 at the fixture cost `[mp 5, hp 999]`. -/
theorem C3_witness :
    (executeCustomAction [] testGameState testBindState stageWithCost "struggle_rope" 1
        (fun _ => 50)).1.player =
      { testGameState.player with combat_stats :=
          { testGameState.player.combat_stats with
              mp := testGameState.player.combat_stats.mp - 5 } } :=
  (C3_cost_deduction_sequential [] testGameState testBindState stageWithCost
    "struggle_rope" costAction 5 999 1 (fun _ => 50) rfl rfl (by decide) (by decide)).1

/-! ### C6 -/

/-- `1 ≤ d` and `0 < q` give a nonnegative truncated product. -/
theorem pyInt_mul_nonneg {d : Int} (hd : 0 ≤ d) {q : ℚ} (hq : 0 ≤ q) :
    0 ≤ pyInt ((d : ℚ) * q) := by
  have hdq : (0 : ℚ) ≤ (d : ℚ) * q := by
    apply mul_nonneg _ hq
    exact_mod_cast hd
  unfold pyInt
  rw [if_pos hdq]
  exact Int.le_floor.mpr (by exact_mod_cast hdq)

/-- `1 ≤ d` and `1 ≤ q` give a truncated product of at least 1. -/
theorem pyInt_mul_one_le {d : Int} (hd : 1 ≤ d) {q : ℚ} (hq : 1 ≤ q) :
    1 ≤ pyInt ((d : ℚ) * q) := by
  have hd' : (1 : ℚ) ≤ (d : ℚ) := by exact_mod_cast hd
  have hdq : (1 : ℚ) ≤ (d : ℚ) * q :=
    le_trans hd' (le_mul_of_one_le_right (le_trans zero_le_one hd') hq)
  unfold pyInt
  rw [if_pos (le_trans zero_le_one hdq)]
  exact Int.le_floor.mpr (by exact_mod_cast hdq)

/-- C6 (amended): the player's normal attack reduces the enemy's HP by
exactly `playerAttackDamage`; the pre-jitter damage is floored at 1
*before* the jitter, and the final damage is the truncated product,
which is never negative and is at least 1 whenever the jitter
multiplier is at least 1 — but can truncate to 0 for multipliers below
1. -/
theorem C6_player_attack_pipeline (p : Player) (bs : BattleState) (jitter : ℚ)
    (h1 : 9/10 ≤ jitter) (h2 : jitter ≤ 11/10) :
    (playerAttack p bs jitter).1.enemy.current_hp =
      bs.enemy.current_hp - playerAttackDamage p.ability_stats.strength
        (getBrandDebuff p bs.enemy.id) bs.enemy.stats.defense bs.enemy_defending jitter ∧
    0 ≤ playerAttackDamage p.ability_stats.strength (getBrandDebuff p bs.enemy.id)
      bs.enemy.stats.defense bs.enemy_defending jitter ∧
    (1 ≤ jitter → 1 ≤ playerAttackDamage p.ability_stats.strength
      (getBrandDebuff p bs.enemy.id) bs.enemy.stats.defense bs.enemy_defending jitter) := by
  refine ⟨rfl, ?_, ?_⟩
  · unfold playerAttackDamage
    dsimp only
    exact pyInt_mul_nonneg (le_trans zero_le_one (le_max_left 1 _))
      (le_trans (by norm_num) h1)
  · intro hj
    unfold playerAttackDamage
    dsimp only
    exact pyInt_mul_one_le (le_max_left 1 _) hj

/-- Witness for C6 at the fixture battle and jitter 1. -/
theorem C6_witness :
    1 ≤ playerAttackDamage testPlayer.ability_stats.strength
      (getBrandDebuff testPlayer testBattleState.enemy.id)
      testBattleState.enemy.stats.defense testBattleState.enemy_defending 1 :=
  (C6_player_attack_pipeline testPlayer testBattleState 1 (by norm_num)
    (by norm_num)).2.2 (by norm_num)

/-- The fixture enemy with defense raised to 60, so that the fixture
player's pre-jitter damage is exactly 1. -/
def toughEnemy : Enemy := { testEnemy with stats := ⟨100, 20, 60, 15, 10⟩ }

/-- A battle state against `toughEnemy`. -/
def toughBattleState : BattleState := { testBattleState with enemy := toughEnemy }

/-- C6 counterexample: at pre-jitter damage 1 and jitter `0.9` (inside
the uniform ±10% range), `int(1 * 0.9) = 0`, so the enemy loses 0 HP —
refuting the claim that every jitter outcome costs the enemy at least
1 HP. -/
theorem C6_counterexample_zero_damage :
    (playerAttack testPlayer toughBattleState (9/10)).1.enemy.current_hp =
      toughBattleState.enemy.current_hp ∧
    ((9:ℚ)/10 ≥ 9/10 ∧ (9:ℚ)/10 ≤ 11/10) := by
  constructor
  · show toughBattleState.enemy.current_hp -
      playerAttackDamage testPlayer.ability_stats.strength
        (getBrandDebuff testPlayer toughBattleState.enemy.id)
        toughBattleState.enemy.stats.defense toughBattleState.enemy_defending (9/10) =
      toughBattleState.enemy.current_hp
    have hd : playerAttackDamage testPlayer.ability_stats.strength
        (getBrandDebuff testPlayer toughBattleState.enemy.id)
        toughBattleState.enemy.stats.defense toughBattleState.enemy_defending (9/10) = 0 := by
      norm_num [playerAttackDamage, pyInt, getBrandDebuff, testPlayer, testAbility,
        toughBattleState, toughEnemy, testEnemy, testBattleState,
        show Int.fdiv 50 5 = 10 from by decide, show Int.fdiv 60 2 = 30 from by decide]
    rw [hd]
    ring
  · norm_num

/-! ### C7 -/

/-- Number of brands carried for a given enemy id. -/
def countBrand (p : Player) (enemy_id : String) : Nat :=
  (p.brands.filter (fun b => b.enemy_id = enemy_id)).length

/-- A brand list with no match filters to nothing. -/
theorem brandFilter_nil {l : List Brand} {eid : String}
    (h : l.any (fun b => b.enemy_id = eid) = false) :
    l.filter (fun b => b.enemy_id = eid) = [] := by
  rw [List.filter_eq_nil_iff]
  intro a ha
  simp only [List.any_eq_false] at h
  simp [h a ha]

/-- A brand list with no match finds nothing. -/
theorem brandFind_none {l : List Brand} {eid : String}
    (h : l.any (fun b => b.enemy_id = eid) = false) :
    l.find? (fun b => b.enemy_id = eid) = none := by
  rw [List.find?_eq_none]
  intro a ha
  simp only [List.any_eq_false] at h
  simp [h a ha]

/-- C7: a climax defeat creates at most one Brand per enemy id — the
defeat handler's player equals `add_brand`, which appends a fresh Brand
(default ratio 0.2) only when none exists for that id; on a player who
already carries the Brand (in particular after a second climax defeat)
it is a no-op, leaving the existing debuff ratio unchanged. -/
theorem C7_brand_at_most_one (gs : GameState) (bs : BattleState)
    (en2 : String) (r2 : ℚ)
    (hcount : countBrand gs.player bs.enemy.id ≤ 1)
    (hclimax : bs.climax_defeat = true) :
    (handlePlayerDefeat gs bs).1.player =
      addBrand gs.player bs.enemy.id bs.enemy.name (1/5) ∧
    countBrand ((handlePlayerDefeat gs bs).1.player) bs.enemy.id ≤ 1 ∧
    (hasBrand gs.player bs.enemy.id = false →
      countBrand ((handlePlayerDefeat gs bs).1.player) bs.enemy.id = 1 ∧
      getBrandDebuff ((handlePlayerDefeat gs bs).1.player) bs.enemy.id = 1/5 ∧
      getBrandDebuff
        (addBrand ((handlePlayerDefeat gs bs).1.player) bs.enemy.id en2 r2)
        bs.enemy.id = 1/5) ∧
    (hasBrand gs.player bs.enemy.id = true →
      (handlePlayerDefeat gs bs).1.player = gs.player) := by
  have hplayer : (handlePlayerDefeat gs bs).1.player =
      addBrand gs.player bs.enemy.id bs.enemy.name (1/5) := by
    by_cases hb : hasBrand gs.player bs.enemy.id
    · unfold handlePlayerDefeat endBattle
      simp [hclimax, hb, addBrand]
    · unfold handlePlayerDefeat endBattle
      simp [hclimax, hb, addBrand]
  refine ⟨hplayer, ?_, ?_, ?_⟩
  · rw [hplayer]
    unfold addBrand
    by_cases hb : hasBrand gs.player bs.enemy.id
    · rw [if_pos hb]; exact hcount
    · rw [if_neg hb]
      unfold countBrand at hcount ⊢
      rw [List.filter_append, brandFilter_nil (by simpa [hasBrand] using hb)]
      simp
  · intro hb
    have hb' : ¬ hasBrand gs.player bs.enemy.id := by simp [hb]
    have hfind := @brandFind_none gs.player.brands bs.enemy.id
      (by simpa [hasBrand] using hb)
    have hfilter := @brandFilter_nil gs.player.brands bs.enemy.id
      (by simpa [hasBrand] using hb)
    rw [hplayer]
    unfold addBrand
    rw [if_neg hb']
    refine ⟨?_, ?_, ?_⟩
    · unfold countBrand
      simp [List.filter_append, hfilter]
    · unfold getBrandDebuff
      simp [List.find?_append, hfind]
    · have hbrand2 : hasBrand
          { gs.player with brands := gs.player.brands ++ [⟨bs.enemy.id, bs.enemy.name, 1/5⟩] }
          bs.enemy.id = true := by
        simp [hasBrand]
      rw [if_pos hbrand2]
      unfold getBrandDebuff
      simp [List.find?_append, hfind]
  · intro hb
    rw [hplayer]
    unfold addBrand
    rw [if_pos hb]

/-- Witness for C7: a climax defeat of the fixture player (no brands)
against the fixture enemy leaves exactly one brand at ratio 0.2. -/
theorem C7_witness :
    countBrand ((handlePlayerDefeat testGameState
      { testBattleState with climax_defeat := true }).1.player) testEnemy.id = 1 ∧
    getBrandDebuff ((handlePlayerDefeat testGameState
      { testBattleState with climax_defeat := true }).1.player) testEnemy.id = 1/5 ∧
    getBrandDebuff (addBrand ((handlePlayerDefeat testGameState
      { testBattleState with climax_defeat := true }).1.player) testEnemy.id
      "Test Enemy" (3/10)) testEnemy.id = 1/5 :=
  (C7_brand_at_most_one testGameState { testBattleState with climax_defeat := true }
    "Test Enemy" (3/10) (by decide) rfl).2.2.1 rfl

/-! ### C8 -/

/-- The accumulating walk returns the first option whose cumulative
weight reaches the roll, provided the total does. -/
theorem weightedWalk_first {α : Type} :
    ∀ (options : List (WeightedOption α)) (roll c : Int),
      options ≠ [] →
      roll ≤ c + (options.map (fun o => o.weight)).sum →
      ∃ i : Fin options.length,
        weightedWalk options roll c = some (options.get i).value ∧
        roll ≤ c + cumWeight options (i.1 + 1) ∧
        ∀ j < i.1, ¬ (roll ≤ c + cumWeight options (j + 1)) := by
  intro options
  induction options with
  | nil => intro roll c hne _; exact absurd rfl hne
  | cons o rest ih =>
    intro roll c _ hsum
    by_cases hle : roll ≤ c + o.weight
    · refine ⟨⟨0, by simp⟩, ?_, ?_, ?_⟩
      · simp [weightedWalk, hle]
      · simpa [cumWeight] using hle
      · intro j hj
        simp only [Fin.val_mk] at hj
        omega
    · have hrest : rest ≠ [] := by
        intro hnil
        subst hnil
        simp at hsum
        exact hle hsum
      have hsum' : roll ≤ (c + o.weight) + (rest.map (fun o => o.weight)).sum := by
        simp only [List.map_cons, List.sum_cons] at hsum
        omega
      obtain ⟨i, heq, hub, hlb⟩ := ih roll (c + o.weight) hrest hsum'
      have hlt : i.1 + 1 < (o :: rest).length := by
        simp only [List.length_cons]
        omega
      refine ⟨⟨i.1 + 1, hlt⟩, ?_, ?_, ?_⟩
      · rw [show weightedWalk (o :: rest) roll c = weightedWalk rest roll (c + o.weight)
          from by simp [weightedWalk, hle]]
        rw [heq]
        rfl
      · have : cumWeight (o :: rest) (i.1 + 2) = o.weight + cumWeight rest (i.1 + 1) := by
          simp [cumWeight, List.take_succ_cons]
        rw [show i.1 + 1 + 1 = i.1 + 2 from rfl, this]
        omega
      · intro j hj
        simp only [Fin.val_mk] at hj
        cases j with
        | zero =>
          have : cumWeight (o :: rest) 1 = o.weight := by simp [cumWeight]
          rw [this]
          omega
        | succ k =>
          have hk : k < i.1 := by omega
          have hone := hlb k hk
          have : cumWeight (o :: rest) (k + 2) = o.weight + cumWeight rest (k + 1) := by
            simp [cumWeight, List.take_succ_cons]
          rw [show k + 1 + 1 = k + 2 from rfl, this]
          omega

/-- C8: on a non-empty pool, `_weighted_random` with a positive total
weight and a roll in `[1, total]` returns the first option whose
cumulative weight reaches the roll; with total weight 0 it returns the
uniformly picked option; in both cases it returns something. -/
theorem C8_weighted_random {α : Type} (options : List (WeightedOption α))
    (roll : Int) (pick : Nat) (hne : options ≠ []) :
    (0 < (options.map (fun o => o.weight)).sum → 1 ≤ roll →
      roll ≤ (options.map (fun o => o.weight)).sum →
      ∃ i : Fin options.length,
        weightedRandom options roll pick = some (options.get i).value ∧
        roll ≤ cumWeight options (i.1 + 1) ∧
        ∀ j < i.1, ¬ (roll ≤ cumWeight options (j + 1))) ∧
    ((options.map (fun o => o.weight)).sum = 0 →
      ∃ hlen : pick % options.length < options.length,
        weightedRandom options roll pick =
          some (options.get ⟨pick % options.length, hlen⟩).value) ∧
    ((0 < (options.map (fun o => o.weight)).sum ∧ 1 ≤ roll ∧
        roll ≤ (options.map (fun o => o.weight)).sum) ∨
      (options.map (fun o => o.weight)).sum = 0 →
      weightedRandom options roll pick ≠ none) := by
  have hemp : ¬ (options.isEmpty = true) := by
    simpa [List.isEmpty_iff] using hne
  have hpos : 0 < options.length := List.length_pos.mpr hne
  have hmod : pick % options.length < options.length := Nat.mod_lt _ hpos
  have hcase1 : 0 < (options.map (fun o => o.weight)).sum → 1 ≤ roll →
      roll ≤ (options.map (fun o => o.weight)).sum →
      ∃ i : Fin options.length,
        weightedRandom options roll pick = some (options.get i).value ∧
        roll ≤ cumWeight options (i.1 + 1) ∧
        ∀ j < i.1, ¬ (roll ≤ cumWeight options (j + 1)) := by
    intro htot h1 h2
    obtain ⟨i, heq, hub, hlb⟩ :=
      weightedWalk_first options roll 0 hne (by omega)
    refine ⟨i, ?_, by omega, fun j hj => by have := hlb j hj; omega⟩
    unfold weightedRandom
    rw [if_neg hemp, if_neg (by omega)]
    rw [heq]
  have hcase2 : (options.map (fun o => o.weight)).sum = 0 →
      ∃ hlen : pick % options.length < options.length,
        weightedRandom options roll pick =
          some (options.get ⟨pick % options.length, hlen⟩).value := by
    intro htot
    refine ⟨hmod, ?_⟩
    unfold weightedRandom
    rw [if_neg hemp, if_pos htot]
    rw [List.get?_eq_get hmod]
    rfl
  refine ⟨hcase1, hcase2, ?_⟩
  rintro (⟨ht, h1, h2⟩ | ht)
  · obtain ⟨i, heq, -, -⟩ := hcase1 ht h1 h2
    rw [heq]
    exact Option.some_ne_none _
  · obtain ⟨hlen, heq⟩ := hcase2 ht
    rw [heq]
    exact Option.some_ne_none _

/-- Witness for C8 on the pool `[(1, "a"), (2, "b")]` with roll 2. -/
theorem C8_witness :
    weightedRandom [(⟨1, "a"⟩ : WeightedOption String), ⟨2, "b"⟩] 2 0 ≠ none :=
  (C8_weighted_random [⟨1, "a"⟩, ⟨2, "b"⟩] 2 0 (by decide)).2.2
    (Or.inl ⟨by decide, by decide, by decide⟩)

/-! ### C9 -/

/-- A poison status whose per-turn tick deals 100 damage. -/
def poisonStatus : StatusEffectInstance :=
  ⟨"poison", "毒", 3, [], [⟨"deal_damage", some 100⟩], []⟩

/-- The fixture player afflicted with `poisonStatus`. -/
def poisonedPlayer : Player := { testPlayer with status_effects := [poisonStatus] }

/-- C9 counterexample: a status tick larger than the player's HP drives
HP to −20 — `_process_status_ticks` (run at the start of every
`execute_player_action`) subtracts tick damage without clamping, so the
claimed invariant `0 ≤ hp` fails after a public battle operation. -/
theorem C9_counterexample_negative_hp :
    (processStatusTicks poisonedPlayer).1.combat_stats.hp = -20 ∧
    ¬ (0 ≤ (processStatusTicks poisonedPlayer).1.combat_stats.hp) := by
  refine ⟨rfl, by decide⟩

/-- C9 (amended): writes that go through `_set_stat_value` are clamped —
combat stats to `[0, max]` and ability stats to `[0, 100]` — but direct
HP subtractions (status ticks, the damage pipeline, loop damage) bypass
the clamp, so the blanket invariant does not hold after every public
operation. -/
theorem C9_set_stat_value_clamps (p : Player) (v : Int)
    (hsp : 0 ≤ p.combat_stats.sp_max) (hhp : 0 ≤ p.combat_stats.hp_max)
    (hmp : 0 ≤ p.combat_stats.mp_max) (hpt : 0 ≤ p.combat_stats.pt_max) :
    (0 ≤ (actionSetStatValue p "sp" v).combat_stats.sp ∧
      (actionSetStatValue p "sp" v).combat_stats.sp ≤ p.combat_stats.sp_max) ∧
    (0 ≤ (actionSetStatValue p "hp" v).combat_stats.hp ∧
      (actionSetStatValue p "hp" v).combat_stats.hp ≤ p.combat_stats.hp_max) ∧
    (0 ≤ (actionSetStatValue p "mp" v).combat_stats.mp ∧
      (actionSetStatValue p "mp" v).combat_stats.mp ≤ p.combat_stats.mp_max) ∧
    (0 ≤ (actionSetStatValue p "pt" v).combat_stats.pt ∧
      (actionSetStatValue p "pt" v).combat_stats.pt ≤ p.combat_stats.pt_max) ∧
    (0 ≤ (actionSetStatValue p "sanity" v).ability_stats.sanity ∧
      (actionSetStatValue p "sanity" v).ability_stats.sanity ≤ 100) ∧
    (0 ≤ (actionSetStatValue p "strength" v).ability_stats.strength ∧
      (actionSetStatValue p "strength" v).ability_stats.strength ≤ 100) ∧
    (0 ≤ (actionSetStatValue p "focus" v).ability_stats.focus ∧
      (actionSetStatValue p "focus" v).ability_stats.focus ≤ 100) ∧
    (0 ≤ (actionSetStatValue p "intelligence" v).ability_stats.intelligence ∧
      (actionSetStatValue p "intelligence" v).ability_stats.intelligence ≤ 100) ∧
    (0 ≤ (actionSetStatValue p "knowledge" v).ability_stats.knowledge ∧
      (actionSetStatValue p "knowledge" v).ability_stats.knowledge ≤ 100) ∧
    (0 ≤ (actionSetStatValue p "dexterity" v).ability_stats.dexterity ∧
      (actionSetStatValue p "dexterity" v).ability_stats.dexterity ≤ 100) := by
  refine ⟨⟨?_, ?_⟩, ⟨?_, ?_⟩, ⟨?_, ?_⟩, ⟨?_, ?_⟩, ⟨?_, ?_⟩, ⟨?_, ?_⟩, ⟨?_, ?_⟩,
    ⟨?_, ?_⟩, ⟨?_, ?_⟩, ⟨?_, ?_⟩⟩
  · show 0 ≤ max 0 (min p.combat_stats.sp_max v); omega
  · show max 0 (min p.combat_stats.sp_max v) ≤ p.combat_stats.sp_max; omega
  · show 0 ≤ max 0 (min p.combat_stats.hp_max v); omega
  · show max 0 (min p.combat_stats.hp_max v) ≤ p.combat_stats.hp_max; omega
  · show 0 ≤ max 0 (min p.combat_stats.mp_max v); omega
  · show max 0 (min p.combat_stats.mp_max v) ≤ p.combat_stats.mp_max; omega
  · show 0 ≤ max 0 (min p.combat_stats.pt_max v); omega
  · show max 0 (min p.combat_stats.pt_max v) ≤ p.combat_stats.pt_max; omega
  · show 0 ≤ max 0 (min 100 v); omega
  · show max 0 (min 100 v) ≤ 100; omega
  · show 0 ≤ max 0 (min 100 v); omega
  · show max 0 (min 100 v) ≤ 100; omega
  · show 0 ≤ max 0 (min 100 v); omega
  · show max 0 (min 100 v) ≤ 100; omega
  · show 0 ≤ max 0 (min 100 v); omega
  · show max 0 (min 100 v) ≤ 100; omega
  · show 0 ≤ max 0 (min 100 v); omega
  · show max 0 (min 100 v) ≤ 100; omega
  · show 0 ≤ max 0 (min 100 v); omega
  · show max 0 (min 100 v) ≤ 100; omega

/-- Witness for C9 clamping at the fixture player and value 999. -/
theorem C9_witness :
    0 ≤ (actionSetStatValue testPlayer "sp" 999).combat_stats.sp ∧
    (actionSetStatValue testPlayer "sp" 999).combat_stats.sp ≤
      testPlayer.combat_stats.sp_max :=
  (C9_set_stat_value_clamps testPlayer 999 (by decide) (by decide) (by decide)
    (by decide)).1

end TextGame
